import Mathlib

/-!
Verification of the compiled-program cache codec (V8 code serializer,
`src/deps/v8/src/snapshot/code-serializer.cc`) against its design
specification.  The definitions below are a shallow embedding of the
source: header fields are modelled as projections of a record (the header
layout is fixed-width, so `GetHeaderValue` at a fixed offset is a field
read), machine integers as `Nat` (all compared quantities are `uint32`),
and the external environment (magic constant, `Version::Hash()`,
`FlagList::Hash()`, the checksum recomputed over the buffer) as an
explicit record passed to the checks.
-/

/-- Modelled from the spec: the header layout constants live in
`code-serializer.h`, which is not part of the excerpt.  Per the spec's
binary-layout table the unaligned header is six 4-byte fields (offsets
0..20), padded to pointer alignment; 24 bytes is already pointer-aligned
on the 64-bit host, so `kHeaderSize = 24`. -/
def kUnalignedHeaderSize : Nat := 24

/-- Header size after padding to pointer alignment (see
`kUnalignedHeaderSize`). -/
def kHeaderSize : Nat := 24

/-- The closed set of rejection reasons
(`SerializedCodeSanityCheckResult`).  Spec names: `Success`, `BadMagic`,
`VersionMismatch`, `SourceMismatch`, `ConfigMismatch`,
`ChecksumMismatch`, `TooSmall`, `LengthMismatch`. -/
inductive SerializedCodeSanityCheckResult where
  | kSuccess
  | kMagicNumberMismatch
  | kVersionMismatch
  | kSourceMismatch
  | kFlagsMismatch
  | kChecksumMismatch
  | kInvalidHeader
  | kLengthMismatch
deriving DecidableEq, Repr

/-- A serialized-code buffer (`SerializedCodeData`): its total byte size
`size_` and the six header fields.  Reading a header field at its fixed
offset (`GetHeaderValue`) is modelled as the corresponding projection;
the fields are only consulted after the size check has passed, exactly
as in the source. -/
structure SCodeData where
  size : Nat
  magicNumber : Nat
  versionHash : Nat
  sourceHash : Nat
  flagHash : Nat
  payloadLength : Nat
  checksum : Nat
deriving DecidableEq, Repr

/-- The environment a sanity check compares against: the build's magic
constant `kMagicNumber`, `Version::Hash()`, `FlagList::Hash()`, the
`FLAG_verify_snapshot_checksum` flag, and the checksum the runtime
recomputes over the buffer's checksummed content
(`Checksum(ChecksummedContent())`). -/
structure CheckEnv where
  magicNumber : Nat
  versionHash : Nat
  flagHash : Nat
  verifyChecksum : Bool
  computedChecksum : Nat
deriving DecidableEq, Repr

/-- `SerializedCodeData::SanityCheckWithoutSource` (Phase A,
structure-only): size, magic, version hash, flags hash, payload-length
bound, and (only when checksum verification is enabled) the checksum,
checked in this order with the first failure returned. -/
def sanityCheckWithoutSource (env : CheckEnv) (d : SCodeData) :
    SerializedCodeSanityCheckResult :=
  if d.size < kHeaderSize then
    SerializedCodeSanityCheckResult.kInvalidHeader
  else if d.magicNumber ≠ env.magicNumber then
    SerializedCodeSanityCheckResult.kMagicNumberMismatch
  else if d.versionHash ≠ env.versionHash then
    SerializedCodeSanityCheckResult.kVersionMismatch
  else if d.flagHash ≠ env.flagHash then
    SerializedCodeSanityCheckResult.kFlagsMismatch
  else if d.payloadLength > d.size - kHeaderSize then
    SerializedCodeSanityCheckResult.kLengthMismatch
  else if env.verifyChecksum then
    if env.computedChecksum ≠ d.checksum then
      SerializedCodeSanityCheckResult.kChecksumMismatch
    else
      SerializedCodeSanityCheckResult.kSuccess
  else
    SerializedCodeSanityCheckResult.kSuccess

/-- `SerializedCodeData::SanityCheckJustSource` (Phase B, content-only):
compare the stored source hash against the expected one. -/
def sanityCheckJustSource (d : SCodeData) (expectedSourceHash : Nat) :
    SerializedCodeSanityCheckResult :=
  if d.sourceHash ≠ expectedSourceHash then
    SerializedCodeSanityCheckResult.kSourceMismatch
  else
    SerializedCodeSanityCheckResult.kSuccess

/-- `SerializedCodeData::SanityCheck`: Phase A, then Phase B only if
Phase A succeeded. -/
def sanityCheck (env : CheckEnv) (d : SCodeData)
    (expectedSourceHash : Nat) : SerializedCodeSanityCheckResult :=
  let result := sanityCheckWithoutSource env d
  if result ≠ SerializedCodeSanityCheckResult.kSuccess then result
  else sanityCheckJustSource d expectedSourceHash

/-- `kModuleFlagMask = 1 << 31` from `SerializedCodeData::SourceHash`. -/
def kModuleFlagMask : Nat := 2 ^ 31

/-- `SerializedCodeData::SourceHash`: the 32-bit source length bitwise
OR'd with the module-flag mask when the origin options mark a module.
The source asserts `0 == (source_length & kModuleFlagMask)`. -/
def sourceHash (sourceLength : Nat) (isModule : Bool) : Nat :=
  let is_module := if isModule then kModuleFlagMask else 0
  sourceLength ||| is_module

/-- `AlignedCachedData`: the caller's buffer wrapper carrying the sticky
`rejected_` flag.  (The unaligned-copy constructor path only changes
where the bytes live, not their values, so the buffer is modelled
directly by its header fields and size.) -/
structure AlignedCachedData where
  buffer : SCodeData
  rejected : Bool
deriving DecidableEq, Repr

/-- `AlignedCachedData::Reject`: sets the sticky flag, never clears it. -/
def AlignedCachedData.reject (c : AlignedCachedData) : AlignedCachedData :=
  { c with rejected := true }

/-- `SerializedCodeData::FromCachedData`: run the combined sanity check;
on failure reject the buffer and hand back no data, otherwise hand the
checked data back.  Returns (data-if-valid, updated buffer wrapper,
rejection result). -/
def fromCachedData (env : CheckEnv) (cached : AlignedCachedData)
    (expectedSourceHash : Nat) :
    Option SCodeData × AlignedCachedData × SerializedCodeSanityCheckResult :=
  let r := sanityCheck env cached.buffer expectedSourceHash
  if r ≠ SerializedCodeSanityCheckResult.kSuccess then
    (none, cached.reject, r)
  else
    (some cached.buffer, cached, r)

/-- `SerializedCodeData::FromCachedDataWithoutSource`: run Phase A only;
on failure reject the buffer and hand back no data. -/
def fromCachedDataWithoutSource (env : CheckEnv)
    (cached : AlignedCachedData) :
    Option SCodeData × AlignedCachedData × SerializedCodeSanityCheckResult :=
  let r := sanityCheckWithoutSource env cached.buffer
  if r ≠ SerializedCodeSanityCheckResult.kSuccess then
    (none, cached.reject, r)
  else
    (some cached.buffer, cached, r)

/-- `SerializedCodeData::FromPartiallySanityCheckedCachedData`: re-use a
stored non-success Phase A result (rejecting again without touching the
source check); otherwise run Phase B and reject on its failure. -/
def fromPartiallyCheckedCachedData (cached : AlignedCachedData)
    (expectedSourceHash : Nat)
    (rejectionResult : SerializedCodeSanityCheckResult) :
    Option SCodeData × AlignedCachedData × SerializedCodeSanityCheckResult :=
  if rejectionResult ≠ SerializedCodeSanityCheckResult.kSuccess then
    (none, cached.reject, rejectionResult)
  else
    let r := sanityCheckJustSource cached.buffer expectedSourceHash
    if r ≠ SerializedCodeSanityCheckResult.kSuccess then
      (none, cached.reject, r)
    else
      (some cached.buffer, cached, r)

/-- Heap values the script / function-metadata transforms compare and
store: the `undefined` root, the `uninitialized_symbol` root sentinel,
the `empty_fixed_array` root, and ordinary heap references. -/
inductive Obj where
  | undef
  | uninitSymbol
  | emptyFixedArray
  | ref (n : Nat)
deriving DecidableEq, Repr

/-- The fields of a `Script` object that
`CodeSerializer::SerializeObjectImpl` touches: `context_data`,
`host_defined_options`, and (`rest`) everything it leaves alone. -/
structure ScriptObj where
  contextData : Obj
  hostDefinedOptions : Obj
  rest : Nat
deriving DecidableEq, Repr

/-- The Script arm of `CodeSerializer::SerializeObjectImpl`.  Returns
the script state seen by the generic encode (`SerializeGeneric`) and
the script state after both restores have run.  `context_data` is
overwritten with `undefined` only when it is neither `undefined` nor
`uninitialized_symbol`; `host_defined_options` is overwritten with the
empty fixed array unconditionally; both saved values are written back
after the generic encode. -/
def serializeScriptImpl (s : ScriptObj) : ScriptObj × ScriptObj :=
  let contextData := s.contextData
  let s1 :=
    if contextData ≠ Obj.undef ∧ contextData ≠ Obj.uninitSymbol then
      { s with contextData := Obj.undef }
    else s
  let hostOptions := s.hostDefinedOptions
  let s2 := { s1 with hostDefinedOptions := Obj.emptyFixedArray }
  let s3 := { s2 with hostDefinedOptions := hostOptions }
  let s4 := { s3 with contextData := contextData }
  (s2, s4)

/-- A `DebugInfo` object: its `script()` back-link, the original
bytecode array, and the instrumented debug bytecode array when
`HasInstrumentedBytecodeArray()` holds. -/
structure DebugInfoObj where
  script : Obj
  originalBytecodeArray : Obj
  debugBytecodeArray : Option Obj
deriving DecidableEq, Repr

/-- The `script_or_debug_info` slot of a `SharedFunctionInfo`: either a
plain script link, or an attached `DebugInfo`. -/
inductive ScriptOrDebugInfo where
  | scriptRef (s : Obj)
  | debugRef (d : DebugInfoObj)
deriving DecidableEq, Repr

/-- The fields of a `SharedFunctionInfo` object touched by the encoder:
the `script_or_debug_info` slot, the active bytecode array, and
(`rest`) everything else. -/
structure SFIObj where
  scriptOrDebugInfo : ScriptOrDebugInfo
  activeBytecodeArray : Obj
  rest : Nat
deriving DecidableEq, Repr

/-- `SharedFunctionInfo::HasDebugInfo`: the slot holds a `DebugInfo`. -/
def SFIObj.hasDebugInfo (sfi : SFIObj) : Bool :=
  match sfi.scriptOrDebugInfo with
  | ScriptOrDebugInfo.debugRef _ => true
  | ScriptOrDebugInfo.scriptRef _ => false

/-- The SharedFunctionInfo arm of
`CodeSerializer::SerializeObjectImpl`.  Returns the state seen by the
generic encode and the state after restoration.  With debug info
attached: if an instrumented bytecode array exists the active bytecode
is swapped to the original array, then the debug linkage is detached by
storing `debug_info.script()` back into the slot; after the generic
encode the debug linkage is restored and, if an instrumented array was
present, the active bytecode is set back to it. -/
def serializeSharedFunctionInfoImpl (sfi : SFIObj) : SFIObj × SFIObj :=
  match sfi.scriptOrDebugInfo with
  | ScriptOrDebugInfo.debugRef d =>
      let sfi1 :=
        match d.debugBytecodeArray with
        | some _ => { sfi with activeBytecodeArray := d.originalBytecodeArray }
        | none => sfi
      let sfi2 := { sfi1 with scriptOrDebugInfo := ScriptOrDebugInfo.scriptRef d.script }
      let sfi3 := { sfi2 with scriptOrDebugInfo := ScriptOrDebugInfo.debugRef d }
      let sfi4 :=
        match d.debugBytecodeArray with
        | some b => { sfi3 with activeBytecodeArray := b }
        | none => sfi3
      (sfi2, sfi4)
  | ScriptOrDebugInfo.scriptRef _ => (sfi, sfi)

/-- A heap object as seen by the encoder's dispatch: its identity, its
read-only-heap membership, the memory chunk (page) it lives on and its
offset within that chunk, and the kind predicates the dispatch tests. -/
structure HeapObj where
  oid : Nat
  inReadOnlyHeap : Bool
  chunk : Nat
  chunkOffset : Nat
  isCode : Bool
  isScript : Bool
  isSharedFunctionInfo : Bool
deriving DecidableEq, Repr

/-- The token family `CodeSerializer::SerializeObjectImpl` emits for a
record: a hot-object-cache hit, a root-table hit, a back-reference, a
read-only-heap reference carrying `(chunk_index, chunk_offset)`, the
`undefined` placeholder for an elided object, generic encoding (with
the Script / SharedFunctionInfo transforms noted), or the fatal
`CHECK(!obj->IsCode())` contract violation. -/
inductive EncodeAction where
  | hotObjectRef
  | rootRef
  | backRef
  | readOnlyHeapRef (chunkIndex : Nat) (chunkOffset : Nat)
  | elidedUndefined
  | genericScript
  | genericSharedFunctionInfo
  | generic
  | fatalContractViolation
deriving DecidableEq, Repr

/-- Modelled from the spec: the hot-object cache, root table and
back-reference table lookups (`SerializeHotObject`, `SerializeRoot`,
`SerializeBackReference`) live in the base `Serializer`
(`serializer.cc`), which is not in the excerpt; per the spec they are
hit/miss lookups keyed by object identity, so they are modelled as
identity-membership tests.  `ElideObject` is likewise modelled as an
identity predicate.  The ordered read-only page list models
`read_only_space->pages()`. -/
structure SerializerState where
  hotObjects : List Nat
  roots : List Nat
  backRefs : List Nat
  elided : List Nat
  readOnlyPages : List Nat
deriving DecidableEq, Repr

/-- The chunk-index loop of `CodeSerializer::SerializeReadOnlyObject`:
walk the ordered page list, stopping at the page equal to the object's
chunk and counting the pages passed over. -/
def chunkIndexOf : List Nat → Nat → Nat
  | [], _ => 0
  | p :: ps, c => if c = p then 0 else chunkIndexOf ps c + 1

/-- `CodeSerializer::SerializeReadOnlyObject`: `none` when the object is
not in the read-only heap; otherwise the emitted
`(chunk_index, chunk_offset)` pair. -/
def serializeReadOnlyObject (st : SerializerState) (obj : HeapObj) :
    Option (Nat × Nat) :=
  if obj.inReadOnlyHeap then
    some (chunkIndexOf st.readOnlyPages obj.chunk, obj.chunkOffset)
  else none

/-- The dispatch of `CodeSerializer::SerializeObjectImpl`: hot object,
root, back reference, read-only reference, the `IsCode` contract check,
elision to `undefined`, then generic encoding with the Script and
SharedFunctionInfo kind transforms. -/
def serializeObjectImpl (st : SerializerState) (obj : HeapObj) :
    EncodeAction :=
  if obj.oid ∈ st.hotObjects then EncodeAction.hotObjectRef
  else if obj.oid ∈ st.roots then EncodeAction.rootRef
  else if obj.oid ∈ st.backRefs then EncodeAction.backRef
  else
    match serializeReadOnlyObject st obj with
    | some (ci, co) => EncodeAction.readOnlyHeapRef ci co
    | none =>
        if obj.isCode then EncodeAction.fatalContractViolation
        else if obj.oid ∈ st.elided then EncodeAction.elidedUndefined
        else if obj.isScript then EncodeAction.genericScript
        else if obj.isSharedFunctionInfo then
          EncodeAction.genericSharedFunctionInfo
        else EncodeAction.generic

/-- A decoded script record: its heap identity and its `source` field
(the off-thread decoder installs the empty string as placeholder). -/
inductive SourceVal where
  | emptyString
  | text (v : Nat)
deriving DecidableEq, Repr

/-- A script record produced by a decode pass. -/
structure ScriptRec where
  sid : Nat
  source : SourceVal
deriving DecidableEq, Repr

/-- A decoded `SharedFunctionInfo` result: its heap identity and the
identity of the script it points at. -/
structure SFIRec where
  fid : Nat
  scriptId : Nat
deriving DecidableEq, Repr

/-- Whether a handle is still in the transferred persistent-handle set
or has been re-attached to ordinary (main-isolate) ownership. -/
inductive Ownership where
  | persistent
  | ordinary
deriving DecidableEq, Repr

/-- `CodeSerializer::Deserialize` (synchronous path): run the combined
sanity check via `FromCachedData`; only on success invoke the object
deserializer.  The deserializer is a parameter, so the failure branch
provably never consults it.  Returns (result, updated buffer wrapper,
sanity-check reason reported to the caller). -/
def deserialize (env : CheckEnv) (cached : AlignedCachedData)
    (expectedSourceHash : Nat)
    (objectDeserializer : SCodeData → Option SFIRec) :
    Option SFIRec × AlignedCachedData × SerializedCodeSanityCheckResult :=
  let t := fromCachedData env cached expectedSourceHash
  match t.1 with
  | none => (none, t.2.1, t.2.2)
  | some scd => (objectDeserializer scd, t.2.1, t.2.2)

/-- `CodeSerializer::OffThreadDeserializeData`: the stored Phase A
result, the decoded result if any, the scripts the decode touched, and
the identities held by the detached persistent-handle set. -/
structure OffThreadDeserializeData where
  sanityCheckResult : SerializedCodeSanityCheckResult
  maybeResult : Option SFIRec
  scripts : List ScriptRec
  persistentHandles : List Nat
deriving DecidableEq, Repr

/-- Modelled from the spec: `NewPersistentMaybeHandle` /
`DetachPersistentHandles` (persistent-handles machinery, not in the
excerpt) move every handle the off-thread decode created — the result
and the decoded scripts — into the transferable set. -/
def detachedHandles (m : Option SFIRec) (scripts : List ScriptRec) :
    List Nat :=
  (match m with
   | some f => [f.fid]
   | none => []) ++ scripts.map ScriptRec.sid

/-- `CodeSerializer::StartDeserializeOffThread`: run Phase A via
`FromCachedDataWithoutSource`; on failure stop with an empty result
(nothing further runs — the off-thread deserializer parameter is not
consulted); on success run the off-thread object deserializer and
detach its handles. -/
def startDeserializeOffThread (env : CheckEnv)
    (cached : AlignedCachedData)
    (offThreadDeserializer : SCodeData → Option SFIRec × List ScriptRec) :
    OffThreadDeserializeData × AlignedCachedData :=
  let t := fromCachedDataWithoutSource env cached
  match t.1 with
  | none =>
      ({ sanityCheckResult := t.2.2, maybeResult := none, scripts := [],
         persistentHandles := [] }, t.2.1)
  | some scd =>
      let md := offThreadDeserializer scd
      ({ sanityCheckResult := t.2.2, maybeResult := md.1,
         scripts := md.2,
         persistentHandles := detachedHandles md.1 md.2 }, t.2.1)

/-- The shared (controlling-thread) state the finish step mutates: the
process-wide script list (`isolate->factory()->script_list()`). -/
structure IsolateState where
  scriptList : List Nat
deriving DecidableEq, Repr

/-- The observable steps of `FinishOffThreadDeserialize`'s success path,
in execution order: re-attach the result handle, install the true
source on the result's script, append each decoded script to the script
list, run the common `FinalizeDeserialization` step. -/
inductive FinishEvent where
  | reattachHandle (fid : Nat)
  | installSource (sid : Nat)
  | appendScript (sid : Nat)
  | finalizeStep
deriving DecidableEq, Repr

/-- Everything `CodeSerializer::FinishOffThreadDeserialize` produces:
the result (with its ownership after re-attachment), the updated buffer
wrapper, the final sanity-check reason, the script records after the
source fix-up, the updated shared state, and the trace of success-path
steps in the order they ran. -/
structure FinishOutcome where
  result : Option (SFIRec × Ownership)
  cached : AlignedCachedData
  finalResult : SerializedCodeSanityCheckResult
  scripts : List ScriptRec
  state : IsolateState
  events : List FinishEvent
deriving DecidableEq, Repr

/-- `CodeSerializer::FinishOffThreadDeserialize`: replay the sanity
check from the stored Phase A result via
`FromPartiallySanityCheckedCachedData`; on failure (or on a failed
off-thread decode) report failure having mutated nothing.  On success:
re-attach the result handle to ordinary ownership, set the true source
on the result's script (the record whose identity the result points
at), append every decoded script to the shared script list, and run the
common finalize step — in that order. -/
def finishOffThreadDeserialize (data : OffThreadDeserializeData)
    (cached : AlignedCachedData) (expectedSourceHash : Nat)
    (trueSource : SourceVal) (st : IsolateState) : FinishOutcome :=
  let t := fromPartiallyCheckedCachedData cached expectedSourceHash
    data.sanityCheckResult
  if t.2.2 ≠ SerializedCodeSanityCheckResult.kSuccess then
    { result := none, cached := t.2.1, finalResult := t.2.2,
      scripts := data.scripts, state := st, events := [] }
  else
    match data.maybeResult with
    | none =>
        { result := none, cached := t.2.1, finalResult := t.2.2,
          scripts := data.scripts, state := st, events := [] }
    | some res =>
        let scripts1 := data.scripts.map (fun s =>
          if s.sid = res.scriptId then { s with source := trueSource }
          else s)
        { result := some (res, Ownership.ordinary),
          cached := t.2.1, finalResult := t.2.2,
          scripts := scripts1,
          state := { scriptList :=
            st.scriptList ++ data.scripts.map ScriptRec.sid },
          events := FinishEvent.reattachHandle res.fid ::
            FinishEvent.installSource res.scriptId ::
            (data.scripts.map (fun s => FinishEvent.appendScript s.sid) ++
              [FinishEvent.finalizeStep]) }

/-- A sample check environment used by concrete witnesses: magic 49,
version hash 7, flags hash 3, checksum verification off (spec section 8
scenario). -/
def sampleEnv : CheckEnv :=
  { magicNumber := 49, versionHash := 7, flagHash := 3,
    verifyChecksum := false, computedChecksum := 0 }

/-- A sample well-formed 152-byte buffer matching `sampleEnv`, payload
length 128 = 152 - 24, source hash 42. -/
def sampleGood : SCodeData :=
  { size := 152, magicNumber := 49, versionHash := 7, sourceHash := 42,
    flagHash := 3, payloadLength := 128, checksum := 0 }

/-- Helper: the asserted precondition `source_length & kModuleFlagMask == 0`
means bit 31 of the source length is clear. -/
theorem testBit31_eq_false_of_land_mask {l : Nat}
    (h : l &&& kModuleFlagMask = 0) : l.testBit 31 = false := by
  have h31 : (l &&& kModuleFlagMask).testBit 31 = false := by
    rw [h]; exact Nat.zero_testBit 31
  rw [Nat.testBit_and] at h31
  have hm : kModuleFlagMask.testBit 31 = true := Nat.testBit_two_pow_self
  rwa [hm, Bool.and_true] at h31

/-- Helper: OR-ing in bit 31 and XOR-ing it away again recovers a number
whose bit 31 was clear. -/
theorem lor_two_pow_xor_cancel {l : Nat} (hl : l.testBit 31 = false) :
    (l ||| 2 ^ 31) ^^^ 2 ^ 31 = l := by
  refine Nat.eq_of_testBit_eq fun i => ?_
  rcases eq_or_ne i 31 with rfl | hi
  · rw [Nat.testBit_xor, Nat.testBit_or, hl, Nat.testBit_two_pow_self]
    rfl
  · rw [Nat.testBit_xor, Nat.testBit_or,
      Nat.testBit_two_pow_of_ne (Ne.symm hi)]
    simp

/-- Claim C1: the Phase A structure-only check applies its checks in the
fixed order size, magic, version tag, flags tag, payload-length bound,
checksum, returning the first matching failure reason, and returns
Success when all pass; in particular a payload-length field equal to
buffer_size - header_size + 1 (earlier checks passing) yields
LengthMismatch. -/
theorem sanityCheckWithoutSource_order (env : CheckEnv) (d : SCodeData) :
    (d.size < kHeaderSize →
      sanityCheckWithoutSource env d =
        SerializedCodeSanityCheckResult.kInvalidHeader)
  ∧ (¬ d.size < kHeaderSize → d.magicNumber ≠ env.magicNumber →
      sanityCheckWithoutSource env d =
        SerializedCodeSanityCheckResult.kMagicNumberMismatch)
  ∧ (¬ d.size < kHeaderSize → d.magicNumber = env.magicNumber →
      d.versionHash ≠ env.versionHash →
      sanityCheckWithoutSource env d =
        SerializedCodeSanityCheckResult.kVersionMismatch)
  ∧ (¬ d.size < kHeaderSize → d.magicNumber = env.magicNumber →
      d.versionHash = env.versionHash → d.flagHash ≠ env.flagHash →
      sanityCheckWithoutSource env d =
        SerializedCodeSanityCheckResult.kFlagsMismatch)
  ∧ (¬ d.size < kHeaderSize → d.magicNumber = env.magicNumber →
      d.versionHash = env.versionHash → d.flagHash = env.flagHash →
      d.payloadLength > d.size - kHeaderSize →
      sanityCheckWithoutSource env d =
        SerializedCodeSanityCheckResult.kLengthMismatch)
  ∧ (¬ d.size < kHeaderSize → d.magicNumber = env.magicNumber →
      d.versionHash = env.versionHash → d.flagHash = env.flagHash →
      d.payloadLength ≤ d.size - kHeaderSize →
      env.verifyChecksum = true → env.computedChecksum ≠ d.checksum →
      sanityCheckWithoutSource env d =
        SerializedCodeSanityCheckResult.kChecksumMismatch)
  ∧ (¬ d.size < kHeaderSize → d.magicNumber = env.magicNumber →
      d.versionHash = env.versionHash → d.flagHash = env.flagHash →
      d.payloadLength ≤ d.size - kHeaderSize →
      (env.verifyChecksum = true → env.computedChecksum = d.checksum) →
      sanityCheckWithoutSource env d =
        SerializedCodeSanityCheckResult.kSuccess)
  ∧ (¬ d.size < kHeaderSize → d.magicNumber = env.magicNumber →
      d.versionHash = env.versionHash → d.flagHash = env.flagHash →
      d.payloadLength = d.size - kHeaderSize + 1 →
      sanityCheckWithoutSource env d =
        SerializedCodeSanityCheckResult.kLengthMismatch) := by
  refine ⟨fun h1 => ?_, fun h1 h2 => ?_, fun h1 h2 h3 => ?_,
    fun h1 h2 h3 h4 => ?_, fun h1 h2 h3 h4 h5 => ?_,
    fun h1 h2 h3 h4 h5 h6 h7 => ?_, fun h1 h2 h3 h4 h5 h6 => ?_,
    fun h1 h2 h3 h4 h5 => ?_⟩
  · unfold sanityCheckWithoutSource
    rw [if_pos h1]
  · unfold sanityCheckWithoutSource
    rw [if_neg h1, if_pos h2]
  · unfold sanityCheckWithoutSource
    rw [if_neg h1, if_neg (not_not_intro h2), if_pos h3]
  · unfold sanityCheckWithoutSource
    rw [if_neg h1, if_neg (not_not_intro h2), if_neg (not_not_intro h3),
      if_pos h4]
  · unfold sanityCheckWithoutSource
    rw [if_neg h1, if_neg (not_not_intro h2), if_neg (not_not_intro h3),
      if_neg (not_not_intro h4), if_pos h5]
  · unfold sanityCheckWithoutSource
    rw [if_neg h1, if_neg (not_not_intro h2), if_neg (not_not_intro h3),
      if_neg (not_not_intro h4), if_neg (by omega), if_pos h6, if_pos h7]
  · unfold sanityCheckWithoutSource
    rw [if_neg h1, if_neg (not_not_intro h2), if_neg (not_not_intro h3),
      if_neg (not_not_intro h4), if_neg (by omega)]
    rcases hv : env.verifyChecksum <;> simp_all
  · unfold sanityCheckWithoutSource
    rw [if_neg h1, if_neg (not_not_intro h2), if_neg (not_not_intro h3),
      if_neg (not_not_intro h4), if_pos (by omega)]

/-- Claim C1 witness: a buffer of 152 bytes whose payload-length field
is 129 = 152 - 24 + 1, all earlier checks passing, is rejected with
LengthMismatch. -/
theorem sanityCheckWithoutSource_order_witness :
    sanityCheckWithoutSource
      { magicNumber := 49, versionHash := 7, flagHash := 3,
        verifyChecksum := false, computedChecksum := 0 }
      { size := 152, magicNumber := 49, versionHash := 7, sourceHash := 42,
        flagHash := 3, payloadLength := 129, checksum := 0 } =
      SerializedCodeSanityCheckResult.kLengthMismatch := by
  have h := sanityCheckWithoutSource_order
    { magicNumber := 49, versionHash := 7, flagHash := 3,
      verifyChecksum := false, computedChecksum := 0 }
    { size := 152, magicNumber := 49, versionHash := 7, sourceHash := 42,
      flagHash := 3, payloadLength := 129, checksum := 0 }
  exact h.2.2.2.2.2.2.2 (by decide) rfl rfl rfl (by decide)

/-- Claim C2: under the asserted precondition that the source length has
bit 31 clear, SourceHash equals length OR (module_flag << 31); the
length and the module flag are both recoverable from the hash (the hash
binds them); and Phase B returns SourceMismatch exactly when the stored
header field differs from the expected hash, Success exactly when they
agree. -/
theorem sourceHash_binding (l : Nat) (m : Bool) (d : SCodeData)
    (expected : Nat) (hbit : l &&& kModuleFlagMask = 0) :
    sourceHash l m = l ||| ((if m then 1 else 0) <<< 31)
  ∧ sourceHash l m ^^^ (if m then kModuleFlagMask else 0) = l
  ∧ (sourceHash l m).testBit 31 = m
  ∧ (sanityCheckJustSource d (sourceHash l m) =
       SerializedCodeSanityCheckResult.kSourceMismatch ↔
       d.sourceHash ≠ sourceHash l m)
  ∧ (sanityCheckJustSource d expected =
       SerializedCodeSanityCheckResult.kSuccess ↔
       d.sourceHash = expected) := by
  have hl31 : l.testBit 31 = false := testBit31_eq_false_of_land_mask hbit
  refine ⟨?_, ?_, ?_, ?_, ?_⟩
  · cases m <;> simp [sourceHash, kModuleFlagMask, Nat.shiftLeft_eq]
  · cases m
    · simp [sourceHash]
    · exact lor_two_pow_xor_cancel hl31
  · cases m
    · simpa [sourceHash] using hl31
    · show (l ||| kModuleFlagMask).testBit 31 = true
      rw [Nat.testBit_or, hl31, show kModuleFlagMask = 2 ^ 31 from rfl,
        Nat.testBit_two_pow_self]
      rfl
  · unfold sanityCheckJustSource
    split_ifs with h <;> simp_all
  · unfold sanityCheckJustSource
    split_ifs with h <;> simp_all

/-- Claim C2 witness: a 42-character module source hashes to
42 OR 2^31, the module bit and length are recoverable, and Phase B on a
header storing 42 compares as stated. -/
theorem sourceHash_binding_witness :
    (42 : Nat) &&& kModuleFlagMask = 0 ∧
    sourceHash 42 true = 42 ||| ((1 : Nat) <<< 31) := by
  have h := sourceHash_binding 42 true
    { size := 152, magicNumber := 49, versionHash := 7, sourceHash := 42,
      flagHash := 3, payloadLength := 128, checksum := 0 }
    42 (by decide)
  exact ⟨by decide, by simpa using h.1⟩


/-- Helper: Phase B can only produce Success or SourceMismatch. -/
theorem sanityCheckJustSource_cases (d : SCodeData) (e : Nat) :
    sanityCheckJustSource d e = SerializedCodeSanityCheckResult.kSuccess ∨
    sanityCheckJustSource d e =
      SerializedCodeSanityCheckResult.kSourceMismatch := by
  unfold sanityCheckJustSource
  split_ifs <;> simp

/-- Claim C3: the combined check runs Phase A first and Phase B only on
Phase A's success (the combined result being A's failure when A fails
and B's result otherwise); FromCachedData stores the numeric reason for
the caller and, on any failure, marks the buffer rejected; the rejected
flag is sticky. -/
theorem sanityCheck_combined_reject (env : CheckEnv)
    (cached : AlignedCachedData) (expected : Nat) :
    (sanityCheckWithoutSource env cached.buffer ≠
        SerializedCodeSanityCheckResult.kSuccess →
      sanityCheck env cached.buffer expected =
        sanityCheckWithoutSource env cached.buffer)
  ∧ (sanityCheckWithoutSource env cached.buffer =
        SerializedCodeSanityCheckResult.kSuccess →
      sanityCheck env cached.buffer expected =
        sanityCheckJustSource cached.buffer expected)
  ∧ (fromCachedData env cached expected).2.2 =
      sanityCheck env cached.buffer expected
  ∧ (sanityCheck env cached.buffer expected ≠
        SerializedCodeSanityCheckResult.kSuccess →
      (fromCachedData env cached expected).1 = none ∧
      (fromCachedData env cached expected).2.1.rejected = true)
  ∧ (sanityCheck env cached.buffer expected =
        SerializedCodeSanityCheckResult.kSuccess →
      (fromCachedData env cached expected).2.1 = cached)
  ∧ (cached.rejected = true →
      (fromCachedData env cached expected).2.1.rejected = true) := by
  refine ⟨fun h => ?_, fun h => ?_, ?_, fun h => ?_, fun h => ?_, fun h => ?_⟩
  · simp [sanityCheck, h]
  · simp [sanityCheck, h]
  · by_cases hc : sanityCheck env cached.buffer expected =
        SerializedCodeSanityCheckResult.kSuccess <;>
      simp [fromCachedData, hc]
  · simp [fromCachedData, h, AlignedCachedData.reject]
  · simp [fromCachedData, h]
  · by_cases hc : sanityCheck env cached.buffer expected =
        SerializedCodeSanityCheckResult.kSuccess <;>
      simp [fromCachedData, hc, AlignedCachedData.reject, h]

/-- Claim C3 witness: a buffer with a wrong magic number fails the
combined check, is handed back rejected, and no data is returned. -/
theorem sanityCheck_combined_reject_witness :
    (fromCachedData sampleEnv
      { buffer := { sampleGood with magicNumber := 50 },
        rejected := false } 42).1 = none ∧
    (fromCachedData sampleEnv
      { buffer := { sampleGood with magicNumber := 50 },
        rejected := false } 42).2.1.rejected = true := by
  have h := sanityCheck_combined_reject sampleEnv
    { buffer := { sampleGood with magicNumber := 50 }, rejected := false }
    42
  exact h.2.2.2.1 (by decide)

/-- Claim C4: Start runs only the structure-only Phase A check — on
Phase A failure no deserialization runs (the result is independent of
the deserializer and carries no decoded data) and the reason is stored;
Finish replays from the stored result: a stored non-Success reason is
kept as the final reason, the buffer is re-rejected and Phase B is not
run (the outcome is independent of the expected source hash); when the
stored result was Success the only failure Finish can add is
SourceMismatch. -/
theorem offThreadSanityProtocol (env : CheckEnv)
    (cached c2 : AlignedCachedData)
    (des des2 : SCodeData → Option SFIRec × List ScriptRec)
    (data : OffThreadDeserializeData) (e e2 : Nat) (src : SourceVal)
    (st : IsolateState) :
    (sanityCheckWithoutSource env cached.buffer ≠
        SerializedCodeSanityCheckResult.kSuccess →
      (startDeserializeOffThread env cached des).1.sanityCheckResult =
          sanityCheckWithoutSource env cached.buffer
      ∧ (startDeserializeOffThread env cached des).1.maybeResult = none
      ∧ (startDeserializeOffThread env cached des).1.scripts = []
      ∧ (startDeserializeOffThread env cached des).2.rejected = true
      ∧ startDeserializeOffThread env cached des =
          startDeserializeOffThread env cached des2)
  ∧ (data.sanityCheckResult ≠ SerializedCodeSanityCheckResult.kSuccess →
      (finishOffThreadDeserialize data c2 e src st).finalResult =
          data.sanityCheckResult
      ∧ (finishOffThreadDeserialize data c2 e src st).result = none
      ∧ (finishOffThreadDeserialize data c2 e src st).cached.rejected = true
      ∧ finishOffThreadDeserialize data c2 e src st =
          finishOffThreadDeserialize data c2 e2 src st)
  ∧ (data.sanityCheckResult = SerializedCodeSanityCheckResult.kSuccess →
      (finishOffThreadDeserialize data c2 e src st).finalResult =
          SerializedCodeSanityCheckResult.kSuccess ∨
      (finishOffThreadDeserialize data c2 e src st).finalResult =
          SerializedCodeSanityCheckResult.kSourceMismatch) := by
  refine ⟨fun h => ?_, fun h => ?_, fun h => ?_⟩
  · simp [startDeserializeOffThread, fromCachedDataWithoutSource, h,
      AlignedCachedData.reject]
  · simp [finishOffThreadDeserialize, fromPartiallyCheckedCachedData, h,
      AlignedCachedData.reject]
  · rcases sanityCheckJustSource_cases c2.buffer e with hj | hj
    · refine Or.inl ?_
      cases hr : data.maybeResult <;>
        simp [finishOffThreadDeserialize, fromPartiallyCheckedCachedData,
          h, hj, hr]
    · refine Or.inr ?_
      simp [finishOffThreadDeserialize, fromPartiallyCheckedCachedData,
        h, hj]

/-- Claim C4 witness: with a stored VersionMismatch from the background
phase, Finish keeps VersionMismatch as the final reason. -/
theorem offThreadSanityProtocol_witness :
    (finishOffThreadDeserialize
      { sanityCheckResult := SerializedCodeSanityCheckResult.kVersionMismatch,
        maybeResult := none, scripts := [], persistentHandles := [] }
      { buffer := { sampleGood with versionHash := 8 }, rejected := true }
      42 (SourceVal.text 9) { scriptList := [] }).finalResult =
      SerializedCodeSanityCheckResult.kVersionMismatch := by
  have h := offThreadSanityProtocol sampleEnv
    { buffer := { sampleGood with versionHash := 8 }, rejected := false }
    { buffer := { sampleGood with versionHash := 8 }, rejected := true }
    (fun _ => (none, [])) (fun _ => (none, []))
    { sanityCheckResult := SerializedCodeSanityCheckResult.kVersionMismatch,
      maybeResult := none, scripts := [], persistentHandles := [] }
    42 43 (SourceVal.text 9) { scriptList := [] }
  exact (h.2.1 (by decide)).1

/-- Claim C5 counterexample: the claim says both environment-specific
fields are replaced with default/empty values before the generic
encode; but a Script whose context_data is the uninitialized-symbol
sentinel keeps that sentinel (not undefined) in the state the generic
encode sees. -/
theorem serializeScript_replace_counterexample :
    ¬ (((serializeScriptImpl
          { contextData := Obj.uninitSymbol,
            hostDefinedOptions := Obj.ref 5,
            rest := 0 }).1).contextData = Obj.undef) := by
  decide

/-- Claim C5 (amended): encoding a Script-kind record replaces the
host-defined-options field with the empty list unconditionally, and the
context-data field with undefined unless it already holds the
uninitialized-symbol sentinel (or undefined itself); both fields are
restored to their original values after the generic encode, so the
record is bit-identical before and after Encode returns and the
caller-visible graph is never left mutated. -/
theorem serializeScript_restores (s : ScriptObj) :
    (serializeScriptImpl s).2 = s
  ∧ ((serializeScriptImpl s).1).hostDefinedOptions = Obj.emptyFixedArray
  ∧ (s.contextData ≠ Obj.uninitSymbol →
      ((serializeScriptImpl s).1).contextData = Obj.undef)
  ∧ ((serializeScriptImpl s).1).rest = s.rest := by
  refine ⟨?_, ?_, fun h => ?_, ?_⟩ <;>
    (cases s with
     | mk c ho r => cases c <;> simp_all [serializeScriptImpl])

/-- Claim C5 witness: a script with an ordinary context-data reference
and a non-empty host-options list is fully restored, and the generic
encode saw undefined context data and empty host options. -/
theorem serializeScript_restores_witness :
    (serializeScriptImpl
        { contextData := Obj.ref 7, hostDefinedOptions := Obj.ref 5,
          rest := 3 }).2 =
      { contextData := Obj.ref 7, hostDefinedOptions := Obj.ref 5,
        rest := 3 } ∧
    ((serializeScriptImpl
        { contextData := Obj.ref 7, hostDefinedOptions := Obj.ref 5,
          rest := 3 }).1).contextData = Obj.undef := by
  have h := serializeScript_restores
    { contextData := Obj.ref 7, hostDefinedOptions := Obj.ref 5, rest := 3 }
  exact ⟨h.1, h.2.2.1 (by decide)⟩

/-- Claim C10: when encoding a Script-kind record the context-data field
is replaced with undefined only if its current value is neither
undefined nor the uninitialized-symbol sentinel; a script whose
context-data is the sentinel is encoded with the sentinel intact, and
one whose context-data is undefined keeps undefined; the
host-defined-options field is replaced unconditionally. -/
theorem serializeScript_contextData_cases (s : ScriptObj) :
    (s.contextData = Obj.uninitSymbol →
      ((serializeScriptImpl s).1).contextData = Obj.uninitSymbol)
  ∧ (s.contextData = Obj.undef →
      ((serializeScriptImpl s).1).contextData = Obj.undef)
  ∧ (s.contextData ≠ Obj.undef → s.contextData ≠ Obj.uninitSymbol →
      ((serializeScriptImpl s).1).contextData = Obj.undef)
  ∧ ((serializeScriptImpl s).1).hostDefinedOptions =
      Obj.emptyFixedArray := by
  refine ⟨fun h => ?_, fun h => ?_, fun h1 h2 => ?_, ?_⟩ <;>
    (cases s with
     | mk c ho r => cases c <;> simp_all [serializeScriptImpl])

/-- Claim C10 witness: the sentinel is kept intact during the generic
encode while host options are emptied. -/
theorem serializeScript_contextData_cases_witness :
    ((serializeScriptImpl
        { contextData := Obj.uninitSymbol,
          hostDefinedOptions := Obj.ref 5,
          rest := 0 }).1).contextData = Obj.uninitSymbol ∧
    ((serializeScriptImpl
        { contextData := Obj.uninitSymbol,
          hostDefinedOptions := Obj.ref 5,
          rest := 0 }).1).hostDefinedOptions = Obj.emptyFixedArray := by
  have h := serializeScript_contextData_cases
    { contextData := Obj.uninitSymbol, hostDefinedOptions := Obj.ref 5,
      rest := 0 }
  exact ⟨h.1 rfl, h.2.2.2⟩

/-- Helper: the page-counting loop of SerializeReadOnlyObject computes
the linear position of the chunk in the ordered page list. -/
theorem chunkIndexOf_eq_indexOf (ps : List Nat) (c : Nat) :
    chunkIndexOf ps c = List.indexOf c ps := by
  induction ps with
  | nil => rfl
  | cons p ps ih =>
      by_cases h : c = p
      · subst h
        simp [chunkIndexOf]
      · simp [chunkIndexOf, h, ih, List.indexOf_cons_ne ps (Ne.symm h)]

/-- Claim C6: the encoder applies its strategies in the fixed priority
order hot-object cache, root table, back-reference table,
read-only-region membership (emitting the chunk index found by linear
position in the ordered page list together with the chunk offset), and
otherwise generic encoding — possibly elided to the undefined
placeholder or kind-specially transformed — with the first match
winning. -/
theorem serializeObjectImpl_priority (st : SerializerState)
    (obj : HeapObj) :
    (obj.oid ∈ st.hotObjects →
      serializeObjectImpl st obj = EncodeAction.hotObjectRef)
  ∧ (obj.oid ∉ st.hotObjects → obj.oid ∈ st.roots →
      serializeObjectImpl st obj = EncodeAction.rootRef)
  ∧ (obj.oid ∉ st.hotObjects → obj.oid ∉ st.roots →
      obj.oid ∈ st.backRefs →
      serializeObjectImpl st obj = EncodeAction.backRef)
  ∧ (obj.oid ∉ st.hotObjects → obj.oid ∉ st.roots →
      obj.oid ∉ st.backRefs → obj.inReadOnlyHeap = true →
      serializeObjectImpl st obj =
        EncodeAction.readOnlyHeapRef
          (List.indexOf obj.chunk st.readOnlyPages) obj.chunkOffset)
  ∧ (obj.oid ∉ st.hotObjects → obj.oid ∉ st.roots →
      obj.oid ∉ st.backRefs → obj.inReadOnlyHeap = false →
      obj.isCode = false → obj.oid ∈ st.elided →
      serializeObjectImpl st obj = EncodeAction.elidedUndefined)
  ∧ (obj.oid ∉ st.hotObjects → obj.oid ∉ st.roots →
      obj.oid ∉ st.backRefs → obj.inReadOnlyHeap = false →
      obj.isCode = false → obj.oid ∉ st.elided →
      (serializeObjectImpl st obj = EncodeAction.genericScript ∨
       serializeObjectImpl st obj =
         EncodeAction.genericSharedFunctionInfo ∨
       serializeObjectImpl st obj = EncodeAction.generic)) := by
  refine ⟨fun h1 => ?_, fun h1 h2 => ?_, fun h1 h2 h3 => ?_,
    fun h1 h2 h3 h4 => ?_, fun h1 h2 h3 h4 h5 h6 => ?_,
    fun h1 h2 h3 h4 h5 h6 => ?_⟩
  · simp [serializeObjectImpl, h1]
  · simp [serializeObjectImpl, h1, h2]
  · simp [serializeObjectImpl, h1, h2, h3]
  · simp [serializeObjectImpl, serializeReadOnlyObject, h1, h2, h3, h4,
      chunkIndexOf_eq_indexOf]
  · simp [serializeObjectImpl, serializeReadOnlyObject, h1, h2, h3, h4,
      h5, h6]
  · by_cases hs : obj.isScript = true
    · exact Or.inl (by
        simp [serializeObjectImpl, serializeReadOnlyObject, h1, h2, h3,
          h4, h5, h6, hs])
    · by_cases hf : obj.isSharedFunctionInfo = true
      · exact Or.inr (Or.inl (by
          simp [serializeObjectImpl, serializeReadOnlyObject, h1, h2, h3,
            h4, h5, h6, hs, hf]))
      · exact Or.inr (Or.inr (by
          simp [serializeObjectImpl, serializeReadOnlyObject, h1, h2, h3,
            h4, h5, h6, hs, hf]))

/-- Claim C6 witness: an object on the second read-only page (page list
[10, 20]), absent from all caches, is emitted as a read-only reference
with chunk index 1 and its offset. -/
theorem serializeObjectImpl_priority_witness :
    serializeObjectImpl
      { hotObjects := [1], roots := [2], backRefs := [3], elided := [],
        readOnlyPages := [10, 20] }
      { oid := 9, inReadOnlyHeap := true, chunk := 20, chunkOffset := 64,
        isCode := false, isScript := false,
        isSharedFunctionInfo := false } =
      EncodeAction.readOnlyHeapRef 1 64 := by
  have h := serializeObjectImpl_priority
    { hotObjects := [1], roots := [2], backRefs := [3], elided := [],
      readOnlyPages := [10, 20] }
    { oid := 9, inReadOnlyHeap := true, chunk := 20, chunkOffset := 64,
      isCode := false, isScript := false, isSharedFunctionInfo := false }
  have h4 := h.2.2.2.1 (by decide) (by decide) (by decide) rfl
  simpa using h4

/-- Claim C7: for a SharedFunctionInfo with debug info attached, the
generic encode sees the record with the debug linkage detached (no
debug info, the slot holding the plain script link) and, when an
instrumented bytecode array exists, with the active bytecode swapped to
the original pre-instrumentation array; afterwards debug linkage and
instrumented bytecode are restored, so (given the runtime invariant
that an instrumented record's active bytecode is the debug array) the
record is unchanged after Encode returns. -/
theorem serializeSFI_debugRestore (sfi : SFIObj) (d : DebugInfoObj)
    (hd : sfi.scriptOrDebugInfo = ScriptOrDebugInfo.debugRef d)
    (hwf : ∀ b, d.debugBytecodeArray = some b →
      sfi.activeBytecodeArray = b) :
    ((serializeSharedFunctionInfoImpl sfi).1).hasDebugInfo = false
  ∧ ((serializeSharedFunctionInfoImpl sfi).1).scriptOrDebugInfo =
      ScriptOrDebugInfo.scriptRef d.script
  ∧ (∀ b, d.debugBytecodeArray = some b →
      ((serializeSharedFunctionInfoImpl sfi).1).activeBytecodeArray =
        d.originalBytecodeArray)
  ∧ (serializeSharedFunctionInfoImpl sfi).2 = sfi := by
  cases sfi with
  | mk slot active r =>
      cases slot with
      | scriptRef sc => cases hd
      | debugRef dd =>
          injection hd with hdd
          subst hdd
          cases hb : dd.debugBytecodeArray with
          | none =>
              refine ⟨?_, ?_, ?_, ?_⟩ <;>
                simp [serializeSharedFunctionInfoImpl, SFIObj.hasDebugInfo,
                  hb]
          | some b =>
              have hab : active = b := hwf b hb
              subst hab
              refine ⟨?_, ?_, ?_, ?_⟩ <;>
                simp [serializeSharedFunctionInfoImpl, SFIObj.hasDebugInfo,
                  hb]

/-- Claim C7 witness: an instrumented record (active bytecode = debug
array 8, original array 4) is encoded with active bytecode 4 and no
debug linkage, and is fully restored afterwards. -/
theorem serializeSFI_debugRestore_witness :
    ((serializeSharedFunctionInfoImpl
        { scriptOrDebugInfo := ScriptOrDebugInfo.debugRef
            { script := Obj.ref 2, originalBytecodeArray := Obj.ref 4,
              debugBytecodeArray := some (Obj.ref 8) },
          activeBytecodeArray := Obj.ref 8,
          rest := 0 }).1).activeBytecodeArray = Obj.ref 4 ∧
    (serializeSharedFunctionInfoImpl
        { scriptOrDebugInfo := ScriptOrDebugInfo.debugRef
            { script := Obj.ref 2, originalBytecodeArray := Obj.ref 4,
              debugBytecodeArray := some (Obj.ref 8) },
          activeBytecodeArray := Obj.ref 8,
          rest := 0 }).2 =
      { scriptOrDebugInfo := ScriptOrDebugInfo.debugRef
          { script := Obj.ref 2, originalBytecodeArray := Obj.ref 4,
            debugBytecodeArray := some (Obj.ref 8) },
        activeBytecodeArray := Obj.ref 8,
        rest := 0 } := by
  have h := serializeSFI_debugRestore
    { scriptOrDebugInfo := ScriptOrDebugInfo.debugRef
        { script := Obj.ref 2, originalBytecodeArray := Obj.ref 4,
          debugBytecodeArray := some (Obj.ref 8) },
      activeBytecodeArray := Obj.ref 8,
      rest := 0 }
    { script := Obj.ref 2, originalBytecodeArray := Obj.ref 4,
      debugBytecodeArray := some (Obj.ref 8) }
    rfl (by intro b hb; injection hb)
  exact ⟨h.2.2.1 (Obj.ref 8) rfl, h.2.2.2⟩

/-- Claim C8: flipping any bit of the magic-number field of an
otherwise well-formed buffer makes the Phase A check fail with
BadMagic, and Decode returns no result with that reason, marking the
buffer rejected, without invoking the object deserializer (the outcome
is identical for every deserializer). -/
theorem deserialize_rejects_flipped_magic (env : CheckEnv) (d : SCodeData)
    (rej : Bool) (expected : Nat) (i : Nat)
    (des des2 : SCodeData → Option SFIRec)
    (hsz : ¬ d.size < kHeaderSize)
    (hm : d.magicNumber = env.magicNumber)
    (hi : i < 32) :
    sanityCheckWithoutSource env
        { d with magicNumber := d.magicNumber ^^^ 2 ^ i } =
      SerializedCodeSanityCheckResult.kMagicNumberMismatch
  ∧ (deserialize env
        { buffer := { d with magicNumber := d.magicNumber ^^^ 2 ^ i },
          rejected := rej } expected des).1 = none
  ∧ (deserialize env
        { buffer := { d with magicNumber := d.magicNumber ^^^ 2 ^ i },
          rejected := rej } expected des).2.2 =
      SerializedCodeSanityCheckResult.kMagicNumberMismatch
  ∧ (deserialize env
        { buffer := { d with magicNumber := d.magicNumber ^^^ 2 ^ i },
          rejected := rej } expected des).2.1.rejected = true
  ∧ deserialize env
        { buffer := { d with magicNumber := d.magicNumber ^^^ 2 ^ i },
          rejected := rej } expected des =
      deserialize env
        { buffer := { d with magicNumber := d.magicNumber ^^^ 2 ^ i },
          rejected := rej } expected des2 := by
  have hp : (0 : Nat) < 2 ^ i := pow_pos (by omega) i
  have hx : d.magicNumber ^^^ 2 ^ i ≠ d.magicNumber := by
    intro h
    have h2 : d.magicNumber ^^^ (d.magicNumber ^^^ 2 ^ i) =
        d.magicNumber ^^^ d.magicNumber := congrArg (d.magicNumber ^^^ ·) h
    rw [← Nat.xor_assoc, Nat.xor_self, Nat.zero_xor] at h2
    omega
  have hne : d.magicNumber ^^^ 2 ^ i ≠ env.magicNumber := by
    rw [← hm]
    exact hx
  have hA : sanityCheckWithoutSource env
      { d with magicNumber := d.magicNumber ^^^ 2 ^ i } =
      SerializedCodeSanityCheckResult.kMagicNumberMismatch := by
    simp [sanityCheckWithoutSource, hsz, hne]
  have hC : sanityCheck env
      { d with magicNumber := d.magicNumber ^^^ 2 ^ i } expected =
      SerializedCodeSanityCheckResult.kMagicNumberMismatch := by
    simp [sanityCheck, hA]
  refine ⟨hA, ?_, ?_, ?_, ?_⟩ <;>
    simp [deserialize, fromCachedData, hC, AlignedCachedData.reject]

/-- Claim C8 witness: flipping bit 0 of the sample buffer's magic
number makes Decode return nothing with reason BadMagic. -/
theorem deserialize_rejects_flipped_magic_witness :
    (deserialize sampleEnv
      { buffer :=
          { sampleGood with
            magicNumber := sampleGood.magicNumber ^^^ 2 ^ 0 },
        rejected := false } 42 (fun _ => none)).1 = none ∧
    (deserialize sampleEnv
      { buffer :=
          { sampleGood with
            magicNumber := sampleGood.magicNumber ^^^ 2 ^ 0 },
        rejected := false } 42 (fun _ => none)).2.2 =
      SerializedCodeSanityCheckResult.kMagicNumberMismatch := by
  have h := deserialize_rejects_flipped_magic sampleEnv sampleGood false
    42 0 (fun _ => none) (fun _ => none) (by decide) rfl (by decide)
  exact ⟨h.2.1, h.2.2.1⟩

/-- Claim C9: when FinishBackgroundDecode succeeds, the result handle is
re-attached from the transferred persistent-handle set to ordinary
ownership, the one decoded script record (asserted to carry the
placeholder empty-string source) has the true source installed, every
decoded script record is appended to the shared script registry, and
the common finalize step runs — in that order. -/
theorem finishOffThread_success (data : OffThreadDeserializeData)
    (cached : AlignedCachedData) (expected : Nat) (src : SourceVal)
    (st : IsolateState) (res : SFIRec) (s0 : ScriptRec)
    (hA : data.sanityCheckResult = SerializedCodeSanityCheckResult.kSuccess)
    (hB : cached.buffer.sourceHash = expected)
    (hres : data.maybeResult = some res)
    (hph : res.fid ∈ data.persistentHandles)
    (hscripts : data.scripts = [s0])
    (hlink : res.scriptId = s0.sid)
    (hempty : s0.source = SourceVal.emptyString) :
    (finishOffThreadDeserialize data cached expected src st).result =
      some (res, Ownership.ordinary)
  ∧ (finishOffThreadDeserialize data cached expected src st).finalResult =
      SerializedCodeSanityCheckResult.kSuccess
  ∧ (finishOffThreadDeserialize data cached expected src st).scripts =
      [{ s0 with source := src }]
  ∧ (finishOffThreadDeserialize data cached expected src
        st).state.scriptList =
      st.scriptList ++ data.scripts.map ScriptRec.sid
  ∧ (finishOffThreadDeserialize data cached expected src st).events =
      [FinishEvent.reattachHandle res.fid,
       FinishEvent.installSource res.scriptId,
       FinishEvent.appendScript s0.sid,
       FinishEvent.finalizeStep] := by
  have hj : sanityCheckJustSource cached.buffer expected =
      SerializedCodeSanityCheckResult.kSuccess := by
    simp [sanityCheckJustSource, hB]
  refine ⟨?_, ?_, ?_, ?_, ?_⟩ <;>
    simp [finishOffThreadDeserialize, fromPartiallyCheckedCachedData, hA,
      hj, hres, hscripts, hlink]

/-- Claim C9 witness: a successful finish on the sample buffer installs
the true source on the single decoded script, appends it to the script
list, re-attaches the result handle, and runs finalize last. -/
theorem finishOffThread_success_witness :
    (finishOffThreadDeserialize
      { sanityCheckResult := SerializedCodeSanityCheckResult.kSuccess,
        maybeResult := some { fid := 100, scriptId := 7 },
        scripts := [{ sid := 7, source := SourceVal.emptyString }],
        persistentHandles := [100, 7] }
      { buffer := sampleGood, rejected := false }
      42 (SourceVal.text 5) { scriptList := [3] }).scripts =
      [{ sid := 7, source := SourceVal.text 5 }] ∧
    (finishOffThreadDeserialize
      { sanityCheckResult := SerializedCodeSanityCheckResult.kSuccess,
        maybeResult := some { fid := 100, scriptId := 7 },
        scripts := [{ sid := 7, source := SourceVal.emptyString }],
        persistentHandles := [100, 7] }
      { buffer := sampleGood, rejected := false }
      42 (SourceVal.text 5) { scriptList := [3] }).events =
      [FinishEvent.reattachHandle 100, FinishEvent.installSource 7,
       FinishEvent.appendScript 7, FinishEvent.finalizeStep] := by
  have h := finishOffThread_success
    { sanityCheckResult := SerializedCodeSanityCheckResult.kSuccess,
      maybeResult := some { fid := 100, scriptId := 7 },
      scripts := [{ sid := 7, source := SourceVal.emptyString }],
      persistentHandles := [100, 7] }
    { buffer := sampleGood, rejected := false }
    42 (SourceVal.text 5) { scriptList := [3] }
    { fid := 100, scriptId := 7 }
    { sid := 7, source := SourceVal.emptyString }
    rfl rfl rfl (by decide) rfl rfl rfl
  exact ⟨h.2.2.1, h.2.2.2.2⟩
